import Mathlib

/-!
Shallow embedding of the webhook gateway server (`src/server.ts`): the
in-memory delivery queue, the retry logic of `processQueue`, the bounded
history of processed events, and the HTTP handlers for `POST /webhook` and
`GET /queue-status`.  Timestamps (`Date.now()`) are modelled as natural
numbers supplied by the caller; JWT verification is an external capability
and is modelled as a boolean-valued function parameter.
-/

namespace WebhookGateway

/-- The `status` field of a processed event: the TypeScript union type
`"success" | "failed"` (server.ts line 65). -/
inductive EventStatus where
  | success
  | failed
deriving Repr, DecidableEq

/-- `WebhookPayload` (server.ts lines 40-43).  The `data` field has type
`any` in the source; its contents are never inspected by the server, so it
is modelled as an opaque string (its JSON text). -/
structure WebhookPayload where
  event : String
  data : String
deriving Repr, DecidableEq

/-- `WebhookQueueItem` (server.ts lines 51-55). -/
structure WebhookQueueItem where
  payload : WebhookPayload
  retries : Nat
  addedAt : Nat
deriving Repr, DecidableEq

/-- `ProcessedEvent` (server.ts lines 63-67). -/
structure ProcessedEvent where
  event : String
  status : EventStatus
  timestamp : Nat
deriving Repr, DecidableEq

/-- The two global mutable arrays `queue` (line 79) and `processedEvents`
(line 85), gathered into one state record. -/
structure ServerState where
  queue : List WebhookQueueItem
  processedEvents : List ProcessedEvent
deriving Repr, DecidableEq

/-- The initial state: both arrays start empty. -/
def initialState : ServerState := ⟨[], []⟩

/-- `MAX_RETRIES` (server.ts line 91). -/
def MAX_RETRIES : Nat := 3

/-- The success-path history insertion (server.ts lines 160-170):
`processedEvents.unshift({event, status: "success", timestamp: now})`
followed by `if (processedEvents.length > 20) processedEvents.pop()`.
`unshift` prepends (newest first) and `pop` drops the last element. -/
def recordSuccessOutcome (event : String) (now : Nat)
    (history : List ProcessedEvent) : List ProcessedEvent :=
  let history' : List ProcessedEvent := ⟨event, .success, now⟩ :: history
  if 20 < history'.length then history'.dropLast else history'

/-- The failure-path history insertion (server.ts lines 189-193):
`processedEvents.unshift({event, status: "failed", timestamp: now})`.
Unlike the success path, the source performs no length check here. -/
def recordFailedOutcome (event : String) (now : Nat)
    (history : List ProcessedEvent) : List ProcessedEvent :=
  ⟨event, .failed, now⟩ :: history

/-- One iteration of the `queue.forEach((item, index) => ...)` body of
`processQueue` (server.ts lines 151-199) at index `k`.  Per JavaScript
`Array.prototype.forEach` semantics the element is looked up in the
*current* array (`queue[k]?`); an index that no longer exists (because
earlier `splice` calls shortened the array) is skipped.  The delivery
attempt is the `try` block: `deliver item = true` models the `try` body
completing, `false` models it throwing into the `catch` branch.
`queue.splice(k, 1)` is `List.eraseIdx k`; the in-place mutation
`item.retries++` of an item that stays queued is `List.set k`. -/
def processStep (deliver : WebhookQueueItem → Bool) (now : Nat)
    (st : ServerState) (k : Nat) : ServerState :=
  match st.queue[k]? with
  | none => st
  | some item =>
    if deliver item then
      { queue := st.queue.eraseIdx k
        processedEvents := recordSuccessOutcome item.payload.event now st.processedEvents }
    else
      let item' : WebhookQueueItem := { item with retries := item.retries + 1 }
      if MAX_RETRIES ≤ item'.retries then
        { queue := st.queue.eraseIdx k
          processedEvents := recordFailedOutcome item.payload.event now st.processedEvents }
      else
        { queue := st.queue.set k item', processedEvents := st.processedEvents }

/-- `processQueue` (server.ts lines 148-201): `queue.forEach` fixes the
iteration range to the indices `0 .. queue.length - 1` of the array *at the
start* of the traversal and then runs the body at each index in order. -/
def processQueue (deliver : WebhookQueueItem → Bool) (now : Nat)
    (st : ServerState) : ServerState :=
  (List.range st.queue.length).foldl (processStep deliver now) st

/-- `validateSignature` (server.ts lines 116-129).  `jwt.verify(signature,
SECRET)` is an external capability, modelled by the parameter `verify`
(`true` models the call returning, `false` models it throwing).  The guard
`if (!signature) return false` fires exactly on the empty string, the
value the handler substitutes for a missing header. -/
def validateSignature (verify : String → Bool) (_payload : String)
    (signature : String) : Bool :=
  if signature = "" then false
  else verify signature

/-- Stand-in for `JSON.stringify(body ?? {})` (server.ts line 837).  The
only consumer, `validateSignature`, ignores its payload argument, so the
exact serialization never matters. -/
def rawBodyOf (body : WebhookPayload) : String :=
  body.event ++ body.data

/-- The response of the `POST /webhook` handler: HTTP status (Elysia
defaults to 200; the invalid-signature branch sets 401) and the JSON body
fields that each branch returns. -/
structure WebhookResponse where
  status : Nat
  ok : Option Bool
  message : Option String
  error : Option String
deriving Repr, DecidableEq

/-- The `POST /webhook` handler (server.ts lines 829-866).  `xSignature`
is the `x-signature` header (`headers["x-signature"] ?? ""` makes a
missing header the empty string).  A body that reached the handler already
passed the Elysia schema `t.Object({event: t.String(), data: t.Any()})`,
which is what `body : WebhookPayload` expresses.  On a valid signature the
handler pushes a fresh item (`retries = 0`, `addedAt = now`) and runs
`processQueue` synchronously before answering `{ok: true, ...}`. -/
def webhookHandler (verify : String → Bool) (deliver : WebhookQueueItem → Bool)
    (xSignature : Option String) (body : WebhookPayload) (now : Nat)
    (st : ServerState) : WebhookResponse × ServerState :=
  let signature := xSignature.getD ""
  if validateSignature verify (rawBodyOf body) signature then
    let st' : ServerState :=
      { st with queue := st.queue ++ [⟨body, 0, now⟩] }
    let st'' := processQueue deliver now st'
    (⟨200, some true, some "Webhook received and processed", none⟩, st'')
  else
    (⟨401, none, none, some "Invalid signature"⟩, st)

/-- The response body of `GET /queue-status` (server.ts lines 897-906).
`items` carries the `{event, retries}` projection of each queue item. -/
structure QueueStatusResponse where
  queueLength : Nat
  processedCount : Nat
  maxRetries : Nat
  items : List (String × Nat)
  recentEvents : List ProcessedEvent
deriving Repr, DecidableEq

/-- The `GET /queue-status` handler (server.ts lines 897-906).  It only
reads the two arrays: `processedEvents.slice(0, 10)` is `List.take 10`.
The handler is a pure read, so the state component of the result is the
input state unchanged. -/
def queueStatusHandler (st : ServerState) : QueueStatusResponse × ServerState :=
  (⟨st.queue.length,
    st.processedEvents.length,
    MAX_RETRIES,
    st.queue.map (fun item => (item.payload.event, item.retries)),
    st.processedEvents.take 10⟩,
   st)

/-- The delivery attempt of the reference implementation.  The `try` block
of `processQueue` (server.ts lines 152-173) contains only `console.log`,
the history insertion and the `splice`; none of these operations throws,
so in the reference the attempt always succeeds and the `catch` branch
never runs. -/
def deliverRef : WebhookQueueItem → Bool := fun _ => true

/-- The states the reference server can reach: the initial empty state,
followed by any sequence of `POST /webhook` requests (each with an
arbitrary header, body and arrival time) processed with the reference
delivery `deliverRef`.  The remaining routes (`GET /`, `/queue-status`,
`/health`, `/generate-test-token`) never write `queue` or
`processedEvents`, so they do not change the state. -/
inductive Reachable (verify : String → Bool) : ServerState → Prop where
  | init : Reachable verify initialState
  | webhook (xSignature : Option String) (body : WebhookPayload) (now : Nat)
      {st : ServerState} (h : Reachable verify st) :
      Reachable verify (webhookHandler verify deliverRef xSignature body now st).2

/-- The history produced by `n` successive success-path insertions into an
initially empty history; the `i`-th insertion (counting from 0) is stamped
with time `i + 1`. -/
def successHistory (n : Nat) : List ProcessedEvent :=
  (List.range n).foldl (fun h i => recordSuccessOutcome "e" (i + 1) h) []

/-- Every entry of a history extended by a success insertion is either the
freshly inserted success outcome or an entry of the old history. -/
theorem mem_recordSuccessOutcome {e : ProcessedEvent} {ev : String} {now : Nat}
    {h : List ProcessedEvent} (hm : e ∈ recordSuccessOutcome ev now h) :
    e = ⟨ev, .success, now⟩ ∨ e ∈ h := by
  simp only [recordSuccessOutcome] at hm
  split at hm
  · have hm' := (List.dropLast_sublist (⟨ev, .success, now⟩ :: h)).subset hm
    simpa using hm'
  · simpa using hm

/-- One reference-delivery iteration of the `forEach` body preserves the
invariant that every history entry is a success and every queued item has
`retries = 0`. -/
theorem processStep_ref_invariant (now k : Nat) {st : ServerState}
    (hist : ∀ e ∈ st.processedEvents, e.status = EventStatus.success)
    (hq : ∀ i ∈ st.queue, i.retries = 0) :
    (∀ e ∈ (processStep deliverRef now st k).processedEvents,
        e.status = EventStatus.success) ∧
    (∀ i ∈ (processStep deliverRef now st k).queue, i.retries = 0) := by
  unfold processStep
  cases hget : st.queue[k]? with
  | none => exact ⟨hist, hq⟩
  | some item =>
    simp only [deliverRef, if_true]
    refine ⟨?_, ?_⟩
    · intro e he
      rcases mem_recordSuccessOutcome he with rfl | hmem
      · rfl
      · exact hist e hmem
    · intro i hi
      exact hq i ((List.eraseIdx_sublist st.queue k).subset hi)

/-- Folding reference-delivery iterations over any index list preserves the
success/zero-retries invariant. -/
theorem foldl_processStep_ref_invariant (now : Nat) (ks : List Nat)
    {st : ServerState}
    (hist : ∀ e ∈ st.processedEvents, e.status = EventStatus.success)
    (hq : ∀ i ∈ st.queue, i.retries = 0) :
    (∀ e ∈ (ks.foldl (processStep deliverRef now) st).processedEvents,
        e.status = EventStatus.success) ∧
    (∀ i ∈ (ks.foldl (processStep deliverRef now) st).queue, i.retries = 0) := by
  induction ks generalizing st with
  | nil => exact ⟨hist, hq⟩
  | cons k ks ih =>
    have hstep := processStep_ref_invariant now k hist hq
    exact ih hstep.1 hstep.2

/-- A reference-delivery pass preserves the success/zero-retries
invariant. -/
theorem processQueue_ref_invariant (now : Nat) {st : ServerState}
    (hist : ∀ e ∈ st.processedEvents, e.status = EventStatus.success)
    (hq : ∀ i ∈ st.queue, i.retries = 0) :
    (∀ e ∈ (processQueue deliverRef now st).processedEvents,
        e.status = EventStatus.success) ∧
    (∀ i ∈ (processQueue deliverRef now st).queue, i.retries = 0) :=
  foldl_processStep_ref_invariant now (List.range st.queue.length) hist hq

/-- A reference-delivery pass over a single-item queue delivers the item,
records one success outcome and empties the queue. -/
theorem processQueue_ref_single (x : WebhookQueueItem)
    (h : List ProcessedEvent) (now : Nat) :
    processQueue deliverRef now ⟨[x], h⟩ =
      ⟨[], recordSuccessOutcome x.payload.event now h⟩ := by
  rfl

/-- The state left behind by the `POST /webhook` handler: unchanged on an
invalid signature, otherwise the result of one pass over the queue with
the new item appended. -/
theorem webhookHandler_state (verify : String → Bool)
    (deliver : WebhookQueueItem → Bool) (xSignature : Option String)
    (body : WebhookPayload) (now : Nat) (st : ServerState) :
    (webhookHandler verify deliver xSignature body now st).2 =
      if validateSignature verify (rawBodyOf body) (xSignature.getD "") then
        processQueue deliver now { st with queue := st.queue ++ [⟨body, 0, now⟩] }
      else st := by
  unfold webhookHandler
  by_cases hv : validateSignature verify (rawBodyOf body) (xSignature.getD "") <;>
    simp [hv]

/-- In every reachable state of the reference server the queue is empty:
each admission pushes one item onto an empty queue and the synchronous
pass removes it again. -/
theorem Reachable.queue_nil {verify : String → Bool} {st : ServerState}
    (h : Reachable verify st) : st.queue = [] := by
  induction h with
  | init => rfl
  | webhook xSignature body now hprev ih =>
    rename_i s
    rw [webhookHandler_state]
    split
    · rw [show s.queue ++ [(⟨body, 0, now⟩ : WebhookQueueItem)] =
          [⟨body, 0, now⟩] from by rw [ih]; rfl]
      rw [show ({ s with queue := [(⟨body, 0, now⟩ : WebhookQueueItem)] } :
          ServerState) = ⟨[⟨body, 0, now⟩], s.processedEvents⟩ from rfl]
      rw [processQueue_ref_single]
    · exact ih

/-- A success-path insertion keeps the history length: it grows by one
while below the cap of 20, and otherwise the trailing eviction keeps the
length unchanged. -/
theorem length_recordSuccessOutcome (ev : String) (now : Nat)
    (h : List ProcessedEvent) :
    (recordSuccessOutcome ev now h).length =
      if h.length < 20 then h.length + 1 else h.length := by
  simp only [recordSuccessOutcome]
  by_cases hl : h.length < 20
  · rw [if_neg (by simp only [List.length_cons]; omega), if_pos hl]
    simp
  · rw [if_pos (by simp only [List.length_cons]; omega), if_neg hl,
      List.length_dropLast, List.length_cons]
    omega

/-- After `n` success-path insertions into an empty history the history
holds `min n 20` entries. -/
theorem length_successHistory (n : Nat) :
    (successHistory n).length = min n 20 := by
  induction n with
  | zero => rfl
  | succ n ih =>
    have hstep : successHistory (n + 1) =
        recordSuccessOutcome "e" (n + 1) (successHistory n) := by
      unfold successHistory
      rw [List.range_succ, List.foldl_append]
      rfl
    rw [hstep, length_recordSuccessOutcome, ih]
    split <;> omega

/-- C1: falsified as stated.  With two items queued at pass-start and
every delivery succeeding, `processQueue` delivers the first item, splices
it out, and the `forEach` index then steps past the second item, which is
never visited: it stays in the queue with `retries = 0` and no outcome is
recorded for it, although it was present at pass-start. -/
theorem processQueue_skips_second_item_after_removal :
    processQueue deliverRef 9
      ⟨[⟨⟨"order.completed", "a"⟩, 0, 0⟩, ⟨⟨"user.created", "b"⟩, 0, 1⟩], []⟩ =
      ⟨[⟨⟨"user.created", "b"⟩, 0, 1⟩],
       [⟨"order.completed", EventStatus.success, 9⟩]⟩ := by
  rfl

/-- C2: falsified as stated.  Starting from a history already at the
capacity of 20 (built by 20 success insertions), a pass that records a
`failed` terminal outcome (an always-failing item on its third attempt)
leaves the history at 21 entries: the failure-path insertion of
`processQueue` has no eviction check, so the capacity bound is not kept
for sequences that contain failed records. -/
theorem failed_record_exceeds_history_cap :
    (processQueue (fun _ => false) 99
      ⟨[⟨⟨"order.completed", "a"⟩, 2, 0⟩], successHistory 20⟩).processedEvents.length
      = 21 := by
  rfl

/-- C3: an item whose delivery always fails is attempted once per pass;
after passes one and two it stays queued with `retries` 1 and 2 and
nothing is recorded, and on the third failed attempt (`retries` reaches
`MAX_RETRIES = 3`) it is removed from the queue and exactly one `failed`
outcome is recorded. -/
theorem always_failing_item_three_attempts_then_dropped
    (p : WebhookPayload) (t0 : Nat) (h : List ProcessedEvent)
    (n1 n2 n3 : Nat) :
    processQueue (fun _ => false) n1 ⟨[⟨p, 0, t0⟩], h⟩ = ⟨[⟨p, 1, t0⟩], h⟩ ∧
    processQueue (fun _ => false) n2 ⟨[⟨p, 1, t0⟩], h⟩ = ⟨[⟨p, 2, t0⟩], h⟩ ∧
    processQueue (fun _ => false) n3 ⟨[⟨p, 2, t0⟩], h⟩ =
      ⟨[], ⟨p.event, EventStatus.failed, n3⟩ :: h⟩ := by
  refine ⟨rfl, rfl, rfl⟩

/-- C4: a `POST /webhook` request whose `x-signature` header is missing,
or whose token fails JWT verification, is answered with status 401 and
body `{error: "Invalid signature"}`, and the server state is returned
unchanged for every delivery behaviour: nothing is enqueued and no pass
runs. -/
theorem webhook_rejects_invalid_signature_unchanged
    (verify : String → Bool) (deliver : WebhookQueueItem → Bool)
    (xSignature : Option String) (body : WebhookPayload) (now : Nat)
    (st : ServerState)
    (h : xSignature = none ∨ verify (xSignature.getD "") = false) :
    webhookHandler verify deliver xSignature body now st =
      (⟨401, none, none, some "Invalid signature"⟩, st) := by
  have hv : validateSignature verify (rawBodyOf body) (xSignature.getD "") = false := by
    rcases h with rfl | hf
    · rfl
    · unfold validateSignature
      split
      · rfl
      · exact hf
  simp [webhookHandler, hv]

/-- C4 witness: a request with no `x-signature` header against the initial
state is rejected with 401 and leaves the state unchanged. -/
theorem webhook_rejects_invalid_signature_unchanged_witness :
    webhookHandler (fun _ => false) deliverRef none ⟨"user.created", "d"⟩ 5
        initialState =
      (⟨401, none, none, some "Invalid signature"⟩, initialState) :=
  webhook_rejects_invalid_signature_unchanged (fun _ => false) deliverRef none
    ⟨"user.created", "d"⟩ 5 initialState (Or.inl rfl)

/-- C5: a `POST /webhook` request with a valid signature (and a body that
passed the schema, which is what `body : WebhookPayload` expresses) is
answered 200 with `ok: true` for every delivery behaviour `deliver`: the
outcome of the delivery attempts of the triggered pass never reaches the
HTTP response, whose value is fixed before any delivery result is
consulted. -/
theorem webhook_accepts_valid_signature_ok_response
    (verify : String → Bool) (deliver : WebhookQueueItem → Bool)
    (xSignature : Option String) (body : WebhookPayload) (now : Nat)
    (st : ServerState)
    (h : validateSignature verify (rawBodyOf body) (xSignature.getD "") = true) :
    (webhookHandler verify deliver xSignature body now st).1 =
      ⟨200, some true, some "Webhook received and processed", none⟩ := by
  simp [webhookHandler, h]

/-- C5 witness: with a verifier that accepts the token, the handler
answers 200 `ok: true` even when every delivery attempt fails. -/
theorem webhook_accepts_valid_signature_ok_response_witness :
    (webhookHandler (fun _ => true) (fun _ => false) (some "token")
        ⟨"user.created", "d"⟩ 5 initialState).1 =
      ⟨200, some true, some "Webhook received and processed", none⟩ :=
  webhook_accepts_valid_signature_ok_response (fun _ => true) (fun _ => false)
    (some "token") ⟨"user.created", "d"⟩ 5 initialState (by rfl)

/-- C6: with the reference delivery (the `try` block never throws, so the
`catch` branch is unreachable), every history entry of every reachable
server state has status `success` — no `failed` outcome is ever written —
and every queued item still has `retries = 0`. -/
theorem reachable_outcomes_all_success_retries_zero
    (verify : String → Bool) (st : ServerState) (h : Reachable verify st) :
    (∀ e ∈ st.processedEvents, e.status = EventStatus.success) ∧
    (∀ i ∈ st.queue, i.retries = 0) := by
  induction h with
  | init => exact ⟨fun e he => (nomatch he), fun i hi => nomatch hi⟩
  | webhook xSignature body now hprev ih =>
    rename_i s
    rw [webhookHandler_state]
    split
    · apply processQueue_ref_invariant
      · exact ih.1
      · intro i hi
        rcases List.mem_append.mp hi with h1 | h2
        · exact ih.2 i h1
        · rw [List.mem_singleton.mp h2]
    · exact ih

/-- C6 witness: the invariant instantiated at the initial reachable
state. -/
theorem reachable_outcomes_all_success_retries_zero_witness :
    (∀ e ∈ initialState.processedEvents, e.status = EventStatus.success) ∧
    (∀ i ∈ initialState.queue, i.retries = 0) :=
  reachable_outcomes_all_success_retries_zero (fun _ => true) initialState
    Reachable.init

/-- C7: every reachable state of the reference server has an empty queue;
during a successful admission the queue momentarily holds the single
pushed item (length ≤ 1), and the synchronous pass with the
always-succeeding reference delivery empties it again before the handler
returns. -/
theorem reachable_queue_empty_and_single_item_pass
    (verify : String → Bool) (st : ServerState) (h : Reachable verify st) :
    st.queue = [] ∧
    ∀ (body : WebhookPayload) (now : Nat),
      (st.queue ++ [(⟨body, 0, now⟩ : WebhookQueueItem)]).length ≤ 1 ∧
      (processQueue deliverRef now
        { st with queue := st.queue ++ [⟨body, 0, now⟩] }).queue = [] := by
  have hnil := h.queue_nil
  refine ⟨hnil, fun body now => ?_⟩
  rw [show st.queue ++ [(⟨body, 0, now⟩ : WebhookQueueItem)] =
      [⟨body, 0, now⟩] from by rw [hnil]; rfl]
  refine ⟨by simp, ?_⟩
  rw [show ({ st with queue := [(⟨body, 0, now⟩ : WebhookQueueItem)] } :
      ServerState) = ⟨[⟨body, 0, now⟩], st.processedEvents⟩ from rfl]
  rw [processQueue_ref_single]

/-- C7 witness: instantiated at the initial reachable state and a concrete
admission. -/
theorem reachable_queue_empty_and_single_item_pass_witness :
    initialState.queue = [] ∧
    ∀ (body : WebhookPayload) (now : Nat),
      (initialState.queue ++ [(⟨body, 0, now⟩ : WebhookQueueItem)]).length ≤ 1 ∧
      (processQueue deliverRef now
        { initialState with
            queue := initialState.queue ++ [⟨body, 0, now⟩] }).queue = [] :=
  reachable_queue_empty_and_single_item_pass (fun _ => true) initialState
    Reachable.init

/-- C8: after 25 success-path insertions into an empty history the history
holds exactly 20 entries, namely the 20 most recent outcomes (those
stamped 6 through 25 — the oldest 5, stamped 1 through 5, were evicted)
in newest-first order. -/
theorem twentyFive_successes_retain_twenty_newest_first :
    (successHistory 25).length = 20 ∧
    successHistory 25 =
      (List.range 20).map
        (fun j => ⟨"e", EventStatus.success, 25 - j⟩) := by
  exact ⟨rfl, rfl⟩

/-- C9: the `GET /queue-status` handler returns the state unchanged (it
only reads the queue and the history), and the `recentEvents` field of
its response is the newest-first prefix `take 10` of the history, hence
holds at most 10 entries. -/
theorem queueStatus_readonly_recent_at_most_ten (st : ServerState) :
    (queueStatusHandler st).2 = st ∧
    (queueStatusHandler st).1.recentEvents.length ≤ 10 ∧
    (queueStatusHandler st).1.recentEvents = st.processedEvents.take 10 := by
  refine ⟨rfl, ?_, rfl⟩
  simp only [queueStatusHandler, List.length_take]
  omega

/-- C10: the `processedCount` field of `GET /queue-status` equals the
number of history entries currently retained; after `n > 20` terminal
success outcomes the history retains only 20 entries, so `processedCount`
is 20 and is strictly smaller than the total number `n` of events ever
processed. -/
theorem processedCount_counts_retained_history_capped
    (q : List WebhookQueueItem) (n : Nat) (hn : 20 < n) :
    (queueStatusHandler ⟨q, successHistory n⟩).1.processedCount =
      (successHistory n).length ∧
    (queueStatusHandler ⟨q, successHistory n⟩).1.processedCount = 20 ∧
    (queueStatusHandler ⟨q, successHistory n⟩).1.processedCount < n := by
  have hl := length_successHistory n
  refine ⟨rfl, ?_, ?_⟩ <;>
    simp only [queueStatusHandler, hl] <;> omega

/-- C10 witness: after 25 successes `processedCount` reports the 20
retained entries, not the 25 processed events. -/
theorem processedCount_counts_retained_history_capped_witness :
    (queueStatusHandler ⟨[], successHistory 25⟩).1.processedCount =
      (successHistory 25).length ∧
    (queueStatusHandler ⟨[], successHistory 25⟩).1.processedCount = 20 ∧
    (queueStatusHandler ⟨[], successHistory 25⟩).1.processedCount < 25 :=
  processedCount_counts_retained_history_capped [] 25 (by decide)

end WebhookGateway
